import Mathlib

/-!
# SkillsTown upload page script (`static/js/script.js`)

A shallow embedding of the client-side script: the DOM elements the script
looks up are fields of a `Page`, a lookup that returns `null` is `none`, and
every function or event listener of the script is a function from the page
before to the page after, together with the exception (if any) that ended it.
Effects made before an exception stay on the page, as they do in a browser.

Modelling conventions
* ECMAScript strings are Lean `String`s (sequences of Unicode scalar values).
* `innerHTML` of an element is the markup last assigned to it.
* The elements `file`, `file-name`, `submit-btn`, `dropzone` are distinct and
  not nested in one another, so assigning the `innerHTML` of one leaves the
  others in place; `file` is a file input, so it carries a `files` list.
* `String.prototype.toLowerCase` is a built-in of the host, not code of the
  script: the listeners take it as a parameter.  `asciiToLowerCase` is the
  built-in restricted to strings of Basic Latin characters and is used when a
  concrete run is evaluated.
-/

namespace SkillsTown

/-! ## Data model -/

/-- Exceptions the script can end with. -/
inductive JsError where
  /-- A property read or written on `null` or `undefined`. -/
  | typeError
  /-- A global that is not declared (`bootstrap`). -/
  | referenceError
  deriving DecidableEq, Repr

/-- A `File` of a `FileList`; the script reads only its `name`. -/
structure File where
  name : String
  deriving DecidableEq, Repr

/-- The element with id `file`: a file input and its selection. -/
structure FileInput where
  files : List File
  deriving DecidableEq, Repr

/-- The element with id `submit-btn`. -/
structure Button where
  innerHTML : String
  disabled : Bool
  deriving DecidableEq, Repr

/-- The element with id `dropzone`; `classList` is its token list. -/
structure Dropzone where
  classList : List String
  deriving DecidableEq, Repr

/-- The first element of class `skills-container`; `badges` is the
`textContent` of each `.skills-badge` inside it, in document order. -/
structure SkillsContainer where
  badges : List String
  deriving DecidableEq, Repr

/-- What the script can observe and change of the page. -/
structure Page where
  /-- Result of `getElementById('file')`. -/
  file : Option FileInput
  /-- Result of `getElementById('file-name')`: its `innerHTML`. -/
  fileName : Option String
  /-- Result of `getElementById('submit-btn')`. -/
  submitBtn : Option Button
  /-- Result of `getElementById('dropzone')`. -/
  dropzone : Option Dropzone
  /-- Whether `getElementById('upload-form')` finds an element. -/
  uploadForm : Bool
  /-- Number of elements matching `[data-bs-toggle="tooltip"]`. -/
  tooltipTriggers : Nat
  /-- Whether the global `bootstrap` (with its `Tooltip`) is loaded. -/
  bootstrap : Bool
  /-- Result of `querySelector('.skills-container')`. -/
  skillsContainer : Option SkillsContainer
  /-- Whether `navigator.clipboard` is defined (secure context). -/
  clipboardApi : Bool
  /-- Arguments of the `writeText` calls made so far, oldest first. -/
  clipboardWrites : List String
  deriving DecidableEq, Repr

/-- Outcome of a plain function call: the page after, and the exception that
ended the call, if one did. -/
structure Result where
  page : Page
  error : Option JsError
  deriving DecidableEq, Repr

/-- Outcome of an event listener: as `Result`, with whether the listener
called `preventDefault` on its event. -/
structure Handled where
  page : Page
  defaultPrevented : Bool
  error : Option JsError
  deriving DecidableEq, Repr

/-- Listeners attached and tooltips created by the first DOM-ready routine. -/
structure Registered where
  dragover : Bool
  dragleave : Bool
  drop : Bool
  submit : Bool
  tooltips : Nat
  deriving DecidableEq, Repr

/-! ## Host built-ins used by the script -/

/-- Scan for `split`: `acc` holds the current segment, reversed. -/
def splitAux (sep : Char) : List Char → List Char → List (List Char)
  | [], acc => [acc.reverse]
  | c :: cs, acc =>
    if c = sep then acc.reverse :: splitAux sep cs []
    else splitAux sep cs (c :: acc)

/-- The call `s.split(sep)` for a one-character separator. -/
def split (s : String) (sep : Char) : List String :=
  (splitAux sep s.data []).map String.mk

/-- The call `arr.pop()` read for its value: the last element, `undefined`
(here `none`) on an empty array. -/
def pop (arr : List String) : Option String :=
  arr.getLast?

/-- ECMAScript `WhiteSpace` and `LineTerminator` code points, the characters
`trim` strips. -/
def isTrimmed (c : Char) : Bool :=
  let n := c.toNat
  n = 0x09 || n = 0x0A || n = 0x0B || n = 0x0C || n = 0x0D || n = 0x20 ||
  n = 0xA0 || n = 0x1680 || (0x2000 ≤ n && n ≤ 0x200A) || n = 0x2028 ||
  n = 0x2029 || n = 0x202F || n = 0x205F || n = 0x3000 || n = 0xFEFF

/-- The call `s.trim()`. -/
def trim (s : String) : String :=
  String.mk ((s.data.dropWhile isTrimmed).reverse.dropWhile isTrimmed).reverse

/-- The call `arr.join(sep)`. -/
def join (arr : List String) (sep : String) : String :=
  sep.intercalate arr

/-- The built-in `toLowerCase` on strings of Basic Latin characters. -/
def asciiToLowerCase (s : String) : String :=
  String.mk (s.data.map Char.toLower)

/-- The call `classList.add(token)`. -/
def classListAdd (tokens : List String) (token : String) : List String :=
  if tokens.contains token then tokens else tokens ++ [token]

/-- The call `classList.remove(token)`. -/
def classListRemove (tokens : List String) (token : String) : List String :=
  tokens.filter (fun t => t != token)

/-- A change of the dropzone's `classList`; the dropzone is changed in place
where the page has one. -/
def Page.onDropzoneClasses (page : Page) (f : List String → List String) : Page :=
  { page with dropzone := page.dropzone.map (fun d => ⟨f d.classList⟩) }

/-! ## Markup written by the script -/

/-- Template literal of `updateFileName`, lines 7-9. -/
def successNotice (fileName : String) : String :=
  "<div class=\"alert alert-success\">\n            <i class=\"fas fa-check-circle me-2\"></i>Selected file: <strong>"
    ++ fileName ++ "</strong>\n        </div>"

/-- Template literal of the drop listener, lines 45-47. -/
def invalidFormatNotice : String :=
  "<div class=\"alert alert-danger\">\n                    <i class=\"fas fa-exclamation-circle me-2\"></i>Invalid file format. Please upload PDF, DOCX, or TXT files.\n                </div>"

/-- Template literal of the submit listener, lines 58-60. -/
def selectFileNotice : String :=
  "<div class=\"alert alert-danger\">\n                    <i class=\"fas fa-exclamation-circle me-2\"></i>Please select a file to upload.\n                </div>"

/-- Template literal of the submit listener, lines 62-65. -/
def analyzingIndicator : String :=
  "\n                    <span class=\"spinner-border spinner-border-sm me-2\" role=\"status\" aria-hidden=\"true\"></span>\n                    Analyzing CV...\n                "

/-- The array literal of line 41. -/
def acceptedExtensions : List String := ["pdf", "docx", "txt"]

/-! ## The script -/

/-- Function `updateFileName`, lines 1-14. -/
def updateFileName (page : Page) : Result :=
  match page.file with
  | none => ⟨page, some .typeError⟩                 -- `fileInput.files` on null
  | some fileInput =>
    match fileInput.files with
    | file0 :: _ =>                                  -- `files.length > 0`
      match page.fileName with
      | none => ⟨page, some .typeError⟩             -- `innerHTML` set on null
      | some _ =>
        let page1 := { page with fileName := some (successNotice file0.name) }
        match page1.submitBtn with
        | none => ⟨page1, some .typeError⟩          -- `removeAttribute` on null
        | some btn =>
          ⟨{ page1 with submitBtn := some { btn with disabled := false } }, none⟩
    | [] =>
      match page.fileName with
      | none => ⟨page, some .typeError⟩
      | some _ => ⟨{ page with fileName := some "" }, none⟩

/-- Listener for `dragover` on the dropzone, lines 20-23. -/
def dragoverListener (page : Page) : Handled :=
  ⟨page.onDropzoneClasses (fun tokens => classListAdd tokens "bg-light"), true, none⟩

/-- Listener for `dragleave` on the dropzone, lines 25-28. -/
def dragleaveListener (page : Page) : Handled :=
  ⟨page.onDropzoneClasses (fun tokens => classListRemove tokens "bg-light"), true, none⟩

/-- The expression `fileName.split('.').pop().toLowerCase()` of line 39;
`none` stands for the exception of `toLowerCase` called on `undefined`. -/
def fileExt (toLowerCase : String → String) (fileName : String) : Option String :=
  (pop (split fileName '.')).map toLowerCase

/-- Listener for `drop` on the dropzone, lines 30-50; `files` is
`e.dataTransfer.files`.  The `dropzone` of the closure is the element found
when the listener was attached, so it is never null here. -/
def dropListener (toLowerCase : String → String) (page : Page) (files : List File) :
    Handled :=
  -- `e.preventDefault(); dropzone.classList.remove('bg-light')`
  let page0 := page.onDropzoneClasses (fun tokens => classListRemove tokens "bg-light")
  match files with
  | [] => ⟨page0, true, none⟩
  | file0 :: _ =>                                    -- `files.length > 0`
    match fileExt toLowerCase file0.name with
    | none => ⟨page0, true, some .typeError⟩
    | some ext =>
      if acceptedExtensions.contains ext then
        match page0.file with
        | none => ⟨page0, true, some .typeError⟩    -- `fileInput.files =` on null
        | some fileInput =>
          let r := updateFileName
            { page0 with file := some { fileInput with files := files } }
          ⟨r.page, true, r.error⟩
      else
        match page0.fileName with
        | none => ⟨page0, true, some .typeError⟩    -- `innerHTML` set on null
        | some _ =>
          ⟨{ page0 with fileName := some invalidFormatNotice }, true, none⟩

/-- Listener for `submit` on the upload form, lines 54-68. -/
def submitListener (page : Page) : Handled :=
  match page.file with
  | none => ⟨page, false, some .typeError⟩          -- `fileInput.files` on null
  | some fileInput =>
    if fileInput.files.length = 0 then
      -- `event.preventDefault()` comes first
      match page.fileName with
      | none => ⟨page, true, some .typeError⟩
      | some _ => ⟨{ page with fileName := some selectFileNotice }, true, none⟩
    else
      match page.submitBtn with
      | none => ⟨page, false, some .typeError⟩      -- `innerHTML` set on null
      | some _ =>
        ⟨{ page with submitBtn := some ⟨analyzingIndicator, true⟩ }, false, none⟩

/-- No listener attached, no tooltip created. -/
def Registered.nothing : Registered :=
  ⟨false, false, false, false, 0⟩

/-- The first `DOMContentLoaded` routine, lines 16-75. -/
def domContentLoaded (page : Page) : Registered × Option JsError :=
  match page.dropzone with
  | none => (Registered.nothing, none)              -- `if (!dropzone) return;`
  | some _ =>
    let regs : Registered := ⟨true, true, true, page.uploadForm, 0⟩
    if page.tooltipTriggers = 0 then (regs, none)
    else if page.bootstrap then ({ regs with tooltips := page.tooltipTriggers }, none)
    else (regs, some .referenceError)               -- `bootstrap` not declared

/-- A `submit` event on the upload form: the listener runs if the routine
attached it, otherwise nothing of the script runs. -/
def fireSubmit (regs : Registered) (page : Page) : Handled :=
  if regs.submit then submitListener page else ⟨page, false, none⟩

/-- The value of `skills`, lines 96-98. -/
def skills (container : SkillsContainer) : String :=
  join (container.badges.map trim) ", "

/-- Function `copySkillsToClipboard`, lines 92-112, up to the `writeText`
call; the `then` callback runs later, once the write has succeeded. -/
def copySkillsToClipboard (page : Page) : Result :=
  match page.skillsContainer with
  | none => ⟨page, none⟩                            -- `if (!skillsContainer) return;`
  | some container =>
    if skills container ≠ "" then                    -- `if (skills)`
      if page.clipboardApi then
        ⟨{ page with clipboardWrites := page.clipboardWrites ++ [skills container] }, none⟩
      else ⟨page, some .typeError⟩                  -- `writeText` on undefined
    else ⟨page, none⟩

/-- Arguments of the `writeText` calls made between two page states. -/
def written (before after : Page) : List String :=
  after.clipboardWrites.drop before.clipboardWrites.length

/-! ## Lemmas on the built-ins -/

theorem splitAux_ne_nil (sep : Char) (l acc : List Char) : splitAux sep l acc ≠ [] := by
  induction l generalizing acc with
  | nil => simp [splitAux]
  | cons c cs ih =>
    unfold splitAux
    split
    · simp
    · exact ih _

theorem splitAux_of_not_mem (sep : Char) (l acc : List Char) (h : sep ∉ l) :
    splitAux sep l acc = [acc.reverse ++ l] := by
  induction l generalizing acc with
  | nil => simp [splitAux]
  | cons c cs ih =>
    have hc : ¬ c = sep := fun e => h (by simp [e])
    have hcs : sep ∉ cs := fun e => h (by simp [e])
    unfold splitAux
    rw [if_neg hc, ih _ hcs]
    simp

theorem splitAux_getLast (sep : Char) (pre ext acc : List Char) (h : sep ∉ ext) :
    (splitAux sep (pre ++ sep :: ext) acc).getLast? = some ext := by
  induction pre generalizing acc with
  | nil =>
    simp [splitAux, splitAux_of_not_mem sep ext [] h]
  | cons c cs ih =>
    by_cases hc : c = sep
    · have hne := splitAux_ne_nil sep (cs ++ sep :: ext) []
      have ih0 := ih []
      simp only [List.cons_append, splitAux, if_pos hc]
      cases hs : splitAux sep (cs ++ sep :: ext) [] with
      | nil => exact absurd hs hne
      | cons a as =>
        rw [hs] at ih0
        rw [List.getLast?_cons_cons]
        exact ih0
    · simp only [List.cons_append, splitAux, if_neg hc]
      exact ih _

/-- On a name with a dot the extension is what follows the last dot. -/
theorem fileExt_after_last_dot (toLowerCase : String → String) (stem ext : String)
    (h : '.' ∉ ext.data) :
    fileExt toLowerCase (stem ++ "." ++ ext) = some (toLowerCase ext) := by
  have hd : (stem ++ "." ++ ext).data = stem.data ++ '.' :: ext.data := by
    simp [String.data_append]
  simp [fileExt, pop, split, hd, List.getLast?_map, splitAux_getLast _ _ _ _ h]

/-- On a name without a dot the extension is the whole name. -/
theorem fileExt_no_dot (toLowerCase : String → String) (name : String)
    (h : '.' ∉ name.data) :
    fileExt toLowerCase name = some (toLowerCase name) := by
  simp [fileExt, pop, split, splitAux_of_not_mem _ _ _ h]

/-! ## Pages used for concrete runs -/

/-- The upload page as served: nothing selected, submit button disabled. -/
def uploadPage : Page where
  file := some ⟨[]⟩
  fileName := some ""
  submitBtn := some ⟨"Analyze CV", true⟩
  dropzone := some ⟨["dropzone", "bg-light"]⟩
  uploadForm := true
  tooltipTriggers := 2
  bootstrap := true
  skillsContainer := none
  clipboardApi := true
  clipboardWrites := []

/-- The upload page with `old.txt` chosen through the file picker. -/
def pickedPage : Page :=
  { uploadPage with file := some ⟨[⟨"old.txt"⟩]⟩, submitBtn := some ⟨"Analyze CV", false⟩ }

/-- A results page: skill badges, no upload controls. -/
def resultsPage (badges : List String) : Page where
  file := none
  fileName := none
  submitBtn := none
  dropzone := none
  uploadForm := false
  tooltipTriggers := 0
  bootstrap := true
  skillsContainer := some ⟨badges⟩
  clipboardApi := true
  clipboardWrites := []

/-! ## Drop listener -/

/-- C1: a non-empty drop whose first file name ends, after its last dot, in
an extension that lower-cases to pdf, docx or txt puts the dropped list into
the file input, writes the success notice holding that file's exact name into
the feedback container, and clears `disabled` on the submit button. -/
theorem drop_accepted (toLowerCase : String → String) (page : Page)
    (file0 : File) (rest : List File) (stem ext : String)
    (fileInput : FileInput) (markup : String) (btn : Button)
    (hname : file0.name = stem ++ "." ++ ext) (hlast : '.' ∉ ext.data)
    (hext : toLowerCase ext ∈ acceptedExtensions)
    (hfile : page.file = some fileInput) (hnote : page.fileName = some markup)
    (hbtn : page.submitBtn = some btn) :
    (dropListener toLowerCase page (file0 :: rest)).page.file = some ⟨file0 :: rest⟩ ∧
    (dropListener toLowerCase page (file0 :: rest)).page.fileName
      = some (successNotice file0.name) ∧
    (∃ before after, successNotice file0.name = before ++ file0.name ++ after) ∧
    (dropListener toLowerCase page (file0 :: rest)).page.submitBtn
      = some ⟨btn.innerHTML, false⟩ ∧
    (dropListener toLowerCase page (file0 :: rest)).error = none := by
  have hx : fileExt toLowerCase file0.name = some (toLowerCase ext) := by
    rw [hname]; exact fileExt_after_last_dot toLowerCase stem ext hlast
  refine ⟨?_, ?_, ⟨_, _, rfl⟩, ?_, ?_⟩ <;>
    simp [dropListener, hx, hext, Page.onDropzoneClasses, hfile, hnote, hbtn, updateFileName]

/-- Witness of C1: `resume.PDF` dropped on the upload page. -/
theorem drop_accepted_witness :
    (dropListener asciiToLowerCase uploadPage [⟨"resume.PDF"⟩]).page.file
      = some ⟨[⟨"resume.PDF"⟩]⟩ ∧
    (dropListener asciiToLowerCase uploadPage [⟨"resume.PDF"⟩]).page.fileName
      = some (successNotice "resume.PDF") ∧
    (dropListener asciiToLowerCase uploadPage [⟨"resume.PDF"⟩]).page.submitBtn
      = some ⟨"Analyze CV", false⟩ :=
  have h := drop_accepted asciiToLowerCase uploadPage ⟨"resume.PDF"⟩ [] "resume" "PDF"
    ⟨[]⟩ "" ⟨"Analyze CV", true⟩ (by decide) (by decide) (by decide) rfl rfl rfl
  ⟨h.1, h.2.1, h.2.2.2.1⟩

/-- C2: a non-empty drop whose first file name ends, after its last dot, in
an extension that does not lower-case to pdf, docx or txt leaves the file
input as it was and overwrites the feedback container with the danger-style
invalid-format message. -/
theorem drop_rejected (toLowerCase : String → String) (page : Page)
    (file0 : File) (rest : List File) (stem ext : String) (markup : String)
    (hname : file0.name = stem ++ "." ++ ext) (hlast : '.' ∉ ext.data)
    (hext : toLowerCase ext ∉ acceptedExtensions)
    (hnote : page.fileName = some markup) :
    (dropListener toLowerCase page (file0 :: rest)).page.file = page.file ∧
    (dropListener toLowerCase page (file0 :: rest)).page.fileName
      = some invalidFormatNotice ∧
    (dropListener toLowerCase page (file0 :: rest)).error = none := by
  have hx : fileExt toLowerCase file0.name = some (toLowerCase ext) := by
    rw [hname]; exact fileExt_after_last_dot toLowerCase stem ext hlast
  refine ⟨?_, ?_, ?_⟩ <;>
    simp [dropListener, hx, hext, Page.onDropzoneClasses, hnote]

/-- Witness of C2: `photo.tar.GZ` dropped over a picked `old.txt`. -/
theorem drop_rejected_witness :
    (dropListener asciiToLowerCase pickedPage [⟨"photo.tar.GZ"⟩, ⟨"cv.pdf"⟩]).page.file
      = some ⟨[⟨"old.txt"⟩]⟩ ∧
    (dropListener asciiToLowerCase pickedPage [⟨"photo.tar.GZ"⟩, ⟨"cv.pdf"⟩]).page.fileName
      = some invalidFormatNotice :=
  have h := drop_rejected asciiToLowerCase pickedPage ⟨"photo.tar.GZ"⟩ [⟨"cv.pdf"⟩]
    "photo.tar" "GZ" "" (by decide) (by decide) (by decide) rfl
  ⟨h.1, h.2.1⟩

/-- Counterexample to C3: the name `pdf` has no dot, yet dropping it replaces
the selection `old.txt` and shows the success notice, not the danger one. -/
theorem drop_no_dot_accepted :
    '.' ∉ "pdf".data ∧
    (dropListener asciiToLowerCase pickedPage [⟨"pdf"⟩]).page.file = some ⟨[⟨"pdf"⟩]⟩ ∧
    (dropListener asciiToLowerCase pickedPage [⟨"pdf"⟩]).page.file ≠ pickedPage.file ∧
    (dropListener asciiToLowerCase pickedPage [⟨"pdf"⟩]).page.fileName
      = some (successNotice "pdf") ∧
    (dropListener asciiToLowerCase pickedPage [⟨"pdf"⟩]).page.fileName
      ≠ some invalidFormatNotice := by
  decide

/-- C3, amended: on a name without a dot the drop listener takes the whole
name as the extension; when the lower-cased name is not pdf, docx or txt the
file is rejected: the file input stays as it was and the danger message is
shown. -/
theorem drop_no_dot_rejected (toLowerCase : String → String) (page : Page)
    (file0 : File) (rest : List File) (markup : String)
    (hdot : '.' ∉ file0.name.data)
    (hext : toLowerCase file0.name ∉ acceptedExtensions)
    (hnote : page.fileName = some markup) :
    fileExt toLowerCase file0.name = some (toLowerCase file0.name) ∧
    (dropListener toLowerCase page (file0 :: rest)).page.file = page.file ∧
    (dropListener toLowerCase page (file0 :: rest)).page.fileName
      = some invalidFormatNotice ∧
    (dropListener toLowerCase page (file0 :: rest)).error = none := by
  have hx := fileExt_no_dot toLowerCase file0.name hdot
  refine ⟨hx, ?_, ?_, ?_⟩ <;>
    simp [dropListener, hx, hext, Page.onDropzoneClasses, hnote]

/-- Witness of C3, amended: dropping `resume` is rejected. -/
theorem drop_no_dot_rejected_witness :
    fileExt asciiToLowerCase "resume" = some "resume" ∧
    (dropListener asciiToLowerCase pickedPage [⟨"resume"⟩]).page.file
      = some ⟨[⟨"old.txt"⟩]⟩ ∧
    (dropListener asciiToLowerCase pickedPage [⟨"resume"⟩]).page.fileName
      = some invalidFormatNotice :=
  have h := drop_no_dot_rejected asciiToLowerCase pickedPage ⟨"resume"⟩ [] ""
    (by decide) (by decide) rfl
  ⟨h.1, h.2.1, h.2.2.1⟩

/-! ## Submit listener -/

/-- C4: with zero files selected the submit listener calls `preventDefault`,
overwrites the feedback container with the danger-style message asking to
select a file, and leaves the submit button (content and `disabled`) alone. -/
theorem submit_without_file (page : Page) (fileInput : FileInput) (markup : String)
    (hfile : page.file = some fileInput) (hzero : fileInput.files.length = 0)
    (hnote : page.fileName = some markup) :
    (submitListener page).defaultPrevented = true ∧
    (submitListener page).page.fileName = some selectFileNotice ∧
    (submitListener page).page.submitBtn = page.submitBtn ∧
    (submitListener page).error = none := by
  simp [submitListener, hfile, hzero, hnote]

/-- Witness of C4: submitting the upload page as served. -/
theorem submit_without_file_witness :
    (submitListener uploadPage).defaultPrevented = true ∧
    (submitListener uploadPage).page.fileName = some selectFileNotice ∧
    (submitListener uploadPage).page.submitBtn = some ⟨"Analyze CV", true⟩ :=
  have h := submit_without_file uploadPage ⟨[]⟩ "" rfl rfl rfl
  ⟨h.1, h.2.1, h.2.2.1⟩

/-- C5: with at least one file selected, of any name, the submit listener
does not call `preventDefault`, replaces the content of the submit button by
the analyzing indicator, disables the button, and leaves the feedback
container alone. -/
theorem submit_with_file (page : Page) (fileInput : FileInput) (btn : Button)
    (hfile : page.file = some fileInput) (hsome : 0 < fileInput.files.length)
    (hbtn : page.submitBtn = some btn) :
    (submitListener page).defaultPrevented = false ∧
    (submitListener page).page.submitBtn = some ⟨analyzingIndicator, true⟩ ∧
    (submitListener page).page.fileName = page.fileName ∧
    (submitListener page).error = none := by
  have hne : ¬ fileInput.files.length = 0 := Nat.pos_iff_ne_zero.1 hsome
  simp [submitListener, hfile, hne, hbtn]

/-- Witness of C5: a picked `notes.exe` is submitted like any other file. -/
theorem submit_with_file_witness :
    (submitListener { pickedPage with file := some ⟨[⟨"notes.exe"⟩]⟩ }).defaultPrevented
      = false ∧
    (submitListener { pickedPage with file := some ⟨[⟨"notes.exe"⟩]⟩ }).page.submitBtn
      = some ⟨analyzingIndicator, true⟩ ∧
    (submitListener { pickedPage with file := some ⟨[⟨"notes.exe"⟩]⟩ }).page.fileName
      = some "" :=
  have h := submit_with_file { pickedPage with file := some ⟨[⟨"notes.exe"⟩]⟩ }
    ⟨[⟨"notes.exe"⟩]⟩ ⟨"Analyze CV", false⟩ rfl (by decide) rfl
  ⟨h.1, h.2.1, h.2.2.1⟩

/-! ## Clipboard copy -/

/-- C6: with a skills container on the page, every string that
`copySkillsToClipboard` passes to `writeText` is the trimmed badge texts, in
document order, joined by a comma and a space; when that string is non-empty
and the clipboard interface exists, it is written, once. -/
theorem copy_writes_joined_badges (page : Page) (container : SkillsContainer)
    (hcont : page.skillsContainer = some container) :
    (∀ s ∈ written page (copySkillsToClipboard page).page,
      s = join (container.badges.map trim) ", ") ∧
    (page.clipboardApi = true → join (container.badges.map trim) ", " ≠ "" →
      written page (copySkillsToClipboard page).page
        = [join (container.badges.map trim) ", "] ∧
      (copySkillsToClipboard page).error = none) := by
  constructor
  · intro s hs
    by_cases hne : skills container = "" <;> by_cases hapi : page.clipboardApi = true <;>
      simp [written, copySkillsToClipboard, hcont, hne, hapi] at hs
    simpa [skills] using hs
  · intro hapi hne
    simp [written, copySkillsToClipboard, hcont, hne, hapi, skills]

/-- Witness of C6: badges Python, SQL, Excel give `Python, SQL, Excel`. -/
theorem copy_writes_joined_badges_witness :
    written (resultsPage [" Python", "SQL\n", "  Excel  "])
      (copySkillsToClipboard (resultsPage [" Python", "SQL\n", "  Excel  "])).page
      = ["Python, SQL, Excel"] :=
  ((copy_writes_joined_badges (resultsPage [" Python", "SQL\n", "  Excel  "])
    ⟨[" Python", "SQL\n", "  Excel  "]⟩ rfl).2 rfl (by decide)).1

/-- Counterexample to C7: with a skills container that holds no badge, the
call makes no clipboard write at all, though the clipboard interface exists. -/
theorem copy_empty_container_no_write :
    (resultsPage []).skillsContainer = some ⟨[]⟩ ∧
    (resultsPage []).clipboardApi = true ∧
    (copySkillsToClipboard (resultsPage [])).page.clipboardWrites = [] ∧
    written (resultsPage []) (copySkillsToClipboard (resultsPage [])).page = [] := by
  decide

/-- C7, amended: with a skills container that holds no badge, the call
returns without a clipboard write and leaves the page as it was: the test
`if (skills)` skips the write of the empty string. -/
theorem copy_no_badges_skipped (page : Page) (container : SkillsContainer)
    (hcont : page.skillsContainer = some container) (hnone : container.badges = []) :
    skills container = "" ∧
    copySkillsToClipboard page = ⟨page, none⟩ ∧
    written page (copySkillsToClipboard page).page = [] := by
  have hs : skills container = "" := by
    simp [skills, join, hnone, String.intercalate]
  simp [copySkillsToClipboard, hcont, hs, written]

/-- Witness of C7, amended: an upload page that also carries an empty skills
container and a pending earlier write. -/
theorem copy_no_badges_skipped_witness :
    (copySkillsToClipboard
      { uploadPage with skillsContainer := some ⟨[]⟩, clipboardWrites := ["Go"] }).page.clipboardWrites
      = ["Go"] :=
  congrArg (fun r => r.page.clipboardWrites)
    (copy_no_badges_skipped
      { uploadPage with skillsContainer := some ⟨[]⟩, clipboardWrites := ["Go"] }
      ⟨[]⟩ rfl rfl).2.1

/-! ## File-name display -/

/-- C8: `updateFileName` is idempotent: a second run ends as the first did
and leaves the page (feedback container and submit button included) as the
first left it; after a run the feedback container holds the success notice
naming the first selected file when the selection is non-empty, and is empty
when the selection is empty. -/
theorem updateFileName_idempotent (page : Page) :
    updateFileName (updateFileName page).page = updateFileName page ∧
    (updateFileName (updateFileName page).page).page.fileName
      = (updateFileName page).page.fileName ∧
    (updateFileName (updateFileName page).page).page.submitBtn
      = (updateFileName page).page.submitBtn ∧
    (∀ fileInput file0 rest markup, page.file = some fileInput →
      fileInput.files = file0 :: rest → page.fileName = some markup →
      (updateFileName page).page.fileName = some (successNotice file0.name)) ∧
    (∀ fileInput markup, page.file = some fileInput →
      fileInput.files = [] → page.fileName = some markup →
      (updateFileName page).page.fileName = some "") := by
  have idem : updateFileName (updateFileName page).page = updateFileName page := by
    unfold updateFileName
    cases hfile : page.file with
    | none => simp [hfile]
    | some fileInput =>
      cases hfiles : fileInput.files with
      | nil =>
        cases hnote : page.fileName with
        | none => simp [hfile, hfiles, hnote]
        | some markup => simp [hfile, hfiles]
      | cons file0 rest =>
        cases hnote : page.fileName with
        | none => simp [hfile, hfiles, hnote]
        | some markup =>
          cases hbtn : page.submitBtn with
          | none => simp [hfile, hfiles, hbtn]
          | some btn => simp [hfile, hfiles]
  refine ⟨idem, by rw [idem], by rw [idem], ?_, ?_⟩
  · intro fileInput file0 rest markup hfile hfiles hnote
    cases hbtn : page.submitBtn <;> simp [updateFileName, hfile, hfiles, hnote, hbtn]
  · intro fileInput markup hfile hfiles hnote
    simp [updateFileName, hfile, hfiles, hnote]

/-- Witness of C8: one selected file, and an empty selection over a stale
notice. -/
theorem updateFileName_idempotent_witness :
    (updateFileName pickedPage).page.fileName = some (successNotice "old.txt") ∧
    (updateFileName { uploadPage with fileName := some "stale" }).page.fileName = some "" :=
  ⟨(updateFileName_idempotent pickedPage).2.2.2.1 ⟨[⟨"old.txt"⟩]⟩ ⟨"old.txt"⟩ [] "" rfl rfl rfl,
   (updateFileName_idempotent { uploadPage with fileName := some "stale" }).2.2.2.2
      ⟨[]⟩ "stale" rfl rfl rfl⟩

/-! ## Missing elements -/

/-- Counterexample to C9: without the `file` input `updateFileName`, the drop
listener and the submit listener each end with a `TypeError`; without the
`submit-btn` button `updateFileName` first rewrites the feedback container and
then ends with a `TypeError`; without the `file-name` container the submit
listener cancels the submission and then ends with a `TypeError`. -/
theorem missing_element_raises :
    (updateFileName { uploadPage with file := none }).error = some .typeError ∧
    (dropListener asciiToLowerCase { uploadPage with file := none } [⟨"cv.pdf"⟩]).error
      = some .typeError ∧
    (submitListener { uploadPage with file := none }).error = some .typeError ∧
    (updateFileName { pickedPage with submitBtn := none }).error = some .typeError ∧
    (updateFileName { pickedPage with submitBtn := none }).page.fileName
      = some (successNotice "old.txt") ∧
    (updateFileName { pickedPage with submitBtn := none }).page.fileName
      ≠ pickedPage.fileName ∧
    (submitListener { uploadPage with fileName := none }).error = some .typeError ∧
    (submitListener { uploadPage with fileName := none }).defaultPrevented = true := by
  decide

/-- C9, amended: without a `.skills-container` element `copySkillsToClipboard`
returns at once: it raises nothing and leaves the page, the clipboard writes
included, as it was. -/
theorem copy_without_container (page : Page) (hnone : page.skillsContainer = none) :
    copySkillsToClipboard page = ⟨page, none⟩ := by
  simp [copySkillsToClipboard, hnone]

/-- Witness of C9, amended: the upload page has no skills container. -/
theorem copy_without_container_witness :
    copySkillsToClipboard uploadPage = ⟨uploadPage, none⟩ :=
  copy_without_container uploadPage rfl

/-! ## DOM-ready routine -/

/-- On the upload page as served the routine attaches the three drag
listeners and the submit listener and creates both tooltips. -/
theorem domContentLoaded_uploadPage :
    domContentLoaded uploadPage = (⟨true, true, true, true, 2⟩, none) := by
  decide

/-- C10: without a `dropzone` element the first DOM-ready routine returns
before attaching anything: no submit listener is on the form, so a submission
(with zero files too) is neither cancelled nor answered with a message, and
no tooltip is created, whether or not the form and tooltip triggers exist. -/
theorem no_dropzone_nothing_attached (page : Page) (hnone : page.dropzone = none) :
    domContentLoaded page = (Registered.nothing, none) ∧
    (domContentLoaded page).1.submit = false ∧
    (domContentLoaded page).1.tooltips = 0 ∧
    fireSubmit (domContentLoaded page).1 page = ⟨page, false, none⟩ := by
  simp [domContentLoaded, hnone, fireSubmit, Registered.nothing]

/-- Witness of C10: the upload page without its dropzone still has the form,
two tooltip triggers and an empty selection. -/
theorem no_dropzone_nothing_attached_witness :
    ({ uploadPage with dropzone := none } : Page).uploadForm = true ∧
    ({ uploadPage with dropzone := none } : Page).tooltipTriggers = 2 ∧
    ({ uploadPage with dropzone := none } : Page).file = some ⟨[]⟩ ∧
    (domContentLoaded { uploadPage with dropzone := none }).1 = Registered.nothing ∧
    (fireSubmit (domContentLoaded { uploadPage with dropzone := none }).1
      { uploadPage with dropzone := none }).defaultPrevented = false ∧
    (fireSubmit (domContentLoaded { uploadPage with dropzone := none }).1
      { uploadPage with dropzone := none }).page.fileName = some "" :=
  have h := no_dropzone_nothing_attached { uploadPage with dropzone := none } rfl
  ⟨rfl, rfl, rfl, congrArg Prod.fst h.1,
    congrArg Handled.defaultPrevented h.2.2.2,
    congrArg (fun r => r.page.fileName) h.2.2.2⟩

end SkillsTown
